import Mathlib

/- Shallow embedding of src/todo/src/main.rs (owrior/todo_list), a terminal
to-do application backed by a flat JSON file.  Rust usize values are
modelled as Nat; wherever the Rust code can panic (unchecked usize
subtraction, Vec::remove out of bounds, expect on Option) the embedding
makes the panic explicit through an Option result or a dedicated result
constructor.  Timestamps are modelled as the ISO-8601 strings that appear
in the persisted JSON file. -/

namespace Todo

/-- Task record, from struct Task in main.rs: id (usize), name,
created_at, completed_at (optional). -/
structure Task where
  id : Nat
  name : String
  created_at : String
  completed_at : Option String
deriving Repr, DecidableEq

/-- Rust usize subtraction with its panic made explicit: some (a - b) when
b ≤ a, none (a panic of the unchecked `a - b` in a debug build) on
underflow. -/
def checked_sub (a b : Nat) : Option Nat :=
  if b ≤ a then some (a - b) else none

/-- Down-key branch of the event-loop dispatch (main.rs lines 195-204),
given the freshly read task count and the current selection.  The outer
Option models a panic: the Rust expression `amount_tasks - 1` inside
`selected >= amount_tasks - 1` is an unchecked usize subtraction that
underflows when amount_tasks = 0. -/
def handle_down (amount_tasks : Nat) (sel : Option Nat) : Option (Option Nat) :=
  match sel with
  | none => some none
  | some selected =>
    match checked_sub amount_tasks 1 with
    | none => none
    | some last =>
      if last ≤ selected then some (some 0) else some (some (selected + 1))

/-- Up-key branch of the event-loop dispatch (main.rs lines 205-214).  The
outer Option models the panic of `amount_tasks - 1` in the else branch,
reached when the current selection is 0. -/
def handle_up (amount_tasks : Nat) (sel : Option Nat) : Option (Option Nat) :=
  match sel with
  | none => some none
  | some selected =>
    if 0 < selected then some (some (selected - 1))
    else
      match checked_sub amount_tasks 1 with
      | none => none
      | some last => some (some last)

/-- Result of remove_task_at_index: ok carries the saved task list and the
selection the call set; panicked models a Rust panic and carries the
persisted task list at the moment of the panic (Vec::remove on an
out-of-range index panics before write_db runs, while the usize underflow
of `selected - 1` panics after the shortened list was already saved). -/
inductive RemoveResult where
  | ok (stored : List Task) (sel : Option Nat)
  | panicked (stored : List Task)
deriving Repr, DecidableEq

/-- Persisted task list after a remove_task_at_index call: what the
operation left in the file, also when it panicked. -/
def RemoveResult.stored : RemoveResult → List Task
  | .ok stored _ => stored
  | .panicked stored => stored

/-- Whether a remove_task_at_index call returned normally. -/
def RemoveResult.isOk : RemoveResult → Bool
  | .ok _ _ => true
  | .panicked _ => false

/-- From remove_task_at_index (main.rs lines 354-362): with a selection
Some(selected), read the list, Vec::remove(selected) (panics when selected
is not a valid index, before anything is written), save, then select
Some(selected - 1) (unchecked usize subtraction, panics when
selected = 0, after the shortened list was saved).  With no selection the
function does nothing and returns Ok. -/
def remove_task_at_index (tasks : List Task) (sel : Option Nat) : RemoveResult :=
  match sel with
  | none => .ok tasks none
  | some selected =>
    if selected < tasks.length then
      match checked_sub selected 1 with
      | none => .panicked (tasks.eraseIdx selected)
      | some new_sel => .ok (tasks.eraseIdx selected) (some new_sel)
    else .panicked tasks

/-- Id chosen for a newly added task (main.rs lines 339-342): the last
task's id plus one, or 0 when the list is empty. -/
def new_task_id (parsed : List Task) : Nat :=
  match parsed.getLast? with
  | some task => task.id + 1
  | none => 0

/-- Pure core of add_task_to_db (main.rs lines 336-352): parsed is the
list read_db returned, now stands for Utc::now(); the result is the list
that write_db saves and the function returns. -/
def add_task_to_db (task_name : String) (now : String) (parsed : List Task) : List Task :=
  parsed ++ [⟨new_task_id parsed, task_name, now, none⟩]

/-- Data content of the TaskList frame built by render_todo (main.rs lines
259-334): the left pane lists the task names, the right pane shows the
selected task's detail row.  none models the expect panics at lines
277-284, hit when there is no selection or the selection is not a valid
index into the freshly loaded list. -/
def render_todo (task_list : List Task) (sel : Option Nat) :
    Option (List String × Task) :=
  match sel with
  | none => none
  | some i =>
    match task_list[i]? with
    | none => none
    | some t => some (task_list.map Task.name, t)

/-- Modelled from the spec: the JSON values that the out-of-scope
serde_json wrapper reads and writes.  Spec section 6: the persisted file
is a JSON array of Task objects with fields id (integer), name (string),
created_at (ISO-8601 string) and completed_at (ISO-8601 string or
null). -/
inductive Json where
  | jnull : Json
  | jnum : Nat → Json
  | jstr : String → Json
  | jarr : List Json → Json
  | jobj : List (String × Json) → Json

/-- Modelled from the spec: serialization of one Task to its JSON object
(spec section 6 field list). -/
def serialize_task (t : Task) : Json :=
  .jobj [("id", .jnum t.id), ("name", .jstr t.name),
    ("created_at", .jstr t.created_at),
    ("completed_at", match t.completed_at with
      | some d => .jstr d
      | none => .jnull)]

/-- Modelled from the spec: deserialization of one Task from its JSON
object; any other shape is a ParseFailure (none). -/
def deserialize_task : Json → Option Task
  | .jobj [("id", .jnum i), ("name", .jstr n), ("created_at", .jstr c),
      ("completed_at", .jnull)] => some ⟨i, n, c, none⟩
  | .jobj [("id", .jnum i), ("name", .jstr n), ("created_at", .jstr c),
      ("completed_at", .jstr d)] => some ⟨i, n, c, some d⟩
  | _ => none

/-- Modelled from the spec: deserialization of the task array, element by
element; fails when any element fails. -/
def deserialize_tasks : List Json → Option (List Task)
  | [] => some []
  | j :: js =>
    match deserialize_task j, deserialize_tasks js with
    | some t, some ts => some (t :: ts)
    | _, _ => none

/-- From read_db (main.rs lines 248-252), over the parsed file content:
deserialize a Vec of Task from the JSON value. -/
def read_db (content : Json) : Option (List Task) :=
  match content with
  | .jarr items => deserialize_tasks items
  | _ => none

/-- From write_db (main.rs lines 254-257): serialize the task list to the
JSON value written to the file. -/
def write_db (tasks : List Task) : Json :=
  .jarr (tasks.map serialize_task)

/-- Task lists reachable in the store from the empty file through the two
mutating operations: add_task_to_db with any name and timestamp, and
remove_task_at_index with any selection (the store afterwards is whatever
the call left persisted, also when it panicked). -/
inductive Reachable : List Task → Prop where
  | empty : Reachable []
  | add (name now : String) {ts : List Task} :
      Reachable ts → Reachable (add_task_to_db name now ts)
  | remove (sel : Option Nat) {ts : List Task} :
      Reachable ts → Reachable (remove_task_at_index ts sel).stored

/-- Tick interval of the input pump in milliseconds (main.rs line 70). -/
def tick_rate : Nat := 200

/-- Events emitted by the input-pump thread (main.rs enum Event): a key
event forwarded from the terminal, or the periodic tick. -/
inductive PumpEvent where
  | key : PumpEvent
  | tick : PumpEvent
deriving Repr, DecidableEq

/-- State of the input-pump thread between loop iterations, in a discrete
time model: now is the current instant, last_tick the instant stored in
the last_tick variable, keys the arrival instants of pending and future
key events in ascending order. -/
structure PumpState where
  now : Nat
  last_tick : Nat
  keys : List Nat
deriving Repr, DecidableEq

/-- Instant at which the current poll call of the pump returns when no key
event arrives: now plus the computed timeout
tick_rate.checked_sub(last_tick.elapsed()).unwrap_or(0) (main.rs lines
76-78); Nat subtraction truncates at 0 exactly like that expression. -/
def deadline (s : PumpState) : Nat :=
  s.now + (tick_rate - (s.now - s.last_tick))

/-- One iteration of the input-pump loop (main.rs lines 75-91): poll for a
key event until the deadline; a key arriving by the deadline is sent at
its arrival instant (a pending key from the past is sent immediately, at
now); then, whenever the elapsed time since last_tick has reached
tick_rate, a Tick is sent and last_tick is reset to the current instant.
Returns the emitted events tagged with their emission instants, and the
next state. -/
def pump_step (s : PumpState) : List (Nat × PumpEvent) × PumpState :=
  match s.keys with
  | k :: rest =>
    if k ≤ deadline s then
      if tick_rate ≤ max s.now k - s.last_tick then
        ([(max s.now k, .key), (max s.now k, .tick)], ⟨max s.now k, max s.now k, rest⟩)
      else
        ([(max s.now k, .key)], ⟨max s.now k, s.last_tick, rest⟩)
    else
      if tick_rate ≤ deadline s - s.last_tick then
        ([(deadline s, .tick)], ⟨deadline s, deadline s, k :: rest⟩)
      else
        ([], ⟨deadline s, s.last_tick, k :: rest⟩)
  | [] =>
    if tick_rate ≤ deadline s - s.last_tick then
      ([(deadline s, .tick)], ⟨deadline s, deadline s, []⟩)
    else
      ([], ⟨deadline s, s.last_tick, []⟩)

/-- Concrete task used to evaluate theorems on explicit inputs. -/
def taskA : Task := ⟨0, "laundry", "2023-01-01T00:00:00Z", none⟩

/-- Second concrete task used to evaluate theorems on explicit inputs. -/
def taskB : Task := ⟨1, "dishes", "2023-01-02T00:00:00Z", none⟩

lemma stored_remove_of_lt {ts : List Task} {i : Nat} (h : i < ts.length) :
    (remove_task_at_index ts (some i)).stored = ts.eraseIdx i := by
  simp only [remove_task_at_index]
  rw [if_pos h]
  cases hcs : checked_sub i 1 <;> rfl

lemma stored_remove_cases (ts : List Task) (sel : Option Nat) :
    (remove_task_at_index ts sel).stored = ts ∨
    ∃ i, (remove_task_at_index ts sel).stored = ts.eraseIdx i := by
  cases sel with
  | none => exact Or.inl rfl
  | some selected =>
    by_cases h : selected < ts.length
    · exact Or.inr ⟨selected, stored_remove_of_lt h⟩
    · left
      simp only [remove_task_at_index]
      rw [if_neg h]
      rfl

lemma le_of_mem_of_getLast?_pairwise :
    ∀ {l : List Nat} {a b : Nat},
      l.Pairwise (· < ·) → l.getLast? = some b → a ∈ l → a ≤ b
  | [], _, _, _, _, ha => by cases ha
  | [x], a, b, _, hl, ha => by
      have hb : x = b := by simpa using hl
      have hax : a = x := by simpa using ha
      omega
  | x :: y :: l, a, b, hp, hl, ha => by
      rw [List.getLast?_cons_cons] at hl
      rcases List.pairwise_cons.mp hp with ⟨hx, hp2⟩
      rcases List.mem_cons.mp ha with rfl | ha2
      · exact Nat.le_of_lt (hx b (List.mem_of_getLast?_eq_some hl))
      · exact le_of_mem_of_getLast?_pairwise hp2 hl ha2

lemma pairwise_ids_add (task_name now : String) {ts : List Task}
    (h : (ts.map Task.id).Pairwise (· < ·)) :
    ((add_task_to_db task_name now ts).map Task.id).Pairwise (· < ·) := by
  unfold add_task_to_db
  rw [List.map_append, List.pairwise_append]
  refine ⟨h, List.pairwise_singleton _ _, ?_⟩
  intro a ha b hb
  simp only [List.map_cons, List.map_nil, List.mem_singleton] at hb
  subst hb
  show a < new_task_id ts
  unfold new_task_id
  cases hgl : ts.getLast? with
  | none =>
    rw [List.getLast?_eq_none_iff] at hgl
    subst hgl
    simp at ha
  | some t =>
    have hmap : (ts.map Task.id).getLast? = some t.id := by
      rw [List.getLast?_map, hgl]
      rfl
    have hle := le_of_mem_of_getLast?_pairwise h hmap ha
    show a < t.id + 1
    omega

lemma pairwise_ids_eraseIdx {ts : List Task} (i : Nat)
    (h : (ts.map Task.id).Pairwise (· < ·)) :
    ((ts.eraseIdx i).map Task.id).Pairwise (· < ·) :=
  List.Pairwise.sublist ((List.eraseIdx_sublist ts i).map Task.id) h

lemma reachable_pairwise {ts : List Task} (h : Reachable ts) :
    (ts.map Task.id).Pairwise (· < ·) := by
  induction h with
  | empty => simp
  | add task_name now _ ih => exact pairwise_ids_add task_name now ih
  | remove sel _ ih =>
    rcases stored_remove_cases _ sel with heq | ⟨i, heq⟩
    · rw [heq]; exact ih
    · rw [heq]; exact pairwise_ids_eraseIdx i ih

lemma deserialize_serialize_task (t : Task) :
    deserialize_task (serialize_task t) = some t := by
  cases t with
  | mk i n c comp => cases comp <;> rfl

lemma deserialize_tasks_serialize (ts : List Task) :
    deserialize_tasks (ts.map serialize_task) = some ts := by
  induction ts with
  | nil => rfl
  | cons t ts ih =>
    rw [List.map_cons]
    simp only [deserialize_tasks, deserialize_serialize_task, ih]

/-- C1: the 'd' key with selection Some(i) removes the task at index i
and, for i > 0, selects Some(i - 1) (shown at i = 1 on a two-task store);
but at i = 0 the code saves the shortened list and then evaluates the
unchecked usize subtraction 0 - 1, which panics — the selection never
becomes Some(0), contradicting the claim's i = 0 clause (the spec itself
flags this underflow as a bug of the original code). -/
theorem c1_delete_at_index_zero_panics :
    remove_task_at_index [taskA, taskB] (some 1) = .ok [taskA] (some 0) ∧
    remove_task_at_index [taskA] (some 0) = .panicked [] :=
  ⟨rfl, rfl⟩

/-- C2: for every task sequence, add appends exactly one task at the end
with completed_at = none, and the new id is the previous last id plus one,
or 0 when the sequence was empty. -/
theorem c2_add_appends (task_name now : String) (ts : List Task) :
    (add_task_to_db task_name now ts).length = ts.length + 1 ∧
    (add_task_to_db task_name now ts).take ts.length = ts ∧
    (add_task_to_db task_name now ts).getLast? =
      some ⟨(match ts.getLast? with
             | some t => t.id + 1
             | none => 0), task_name, now, none⟩ :=
  ⟨by simp [add_task_to_db], List.take_left ts _, List.getLast?_concat ts⟩

/-- C3 counterexample: at the concrete out-of-range input (one stored
task, index 5) remove_task_at_index panics (Vec::remove out of bounds)
instead of returning normally — the isOk = false conjunct shows the call
is not the no-op return the claim allows, and the code's Error enum has
only ReadDBError and ParseDBError, no IndexOutOfRange variant, so no such
error value can be produced either. -/
theorem c3_out_of_range_panics :
    remove_task_at_index [taskA] (some 5) = .panicked [taskA] ∧
    (remove_task_at_index [taskA] (some 5)).isOk = false :=
  ⟨rfl, rfl⟩

/-- C3 amended: for an index outside 0 ≤ i < length the call panics with
the stored sequence left unchanged (there is no IndexOutOfRange error
value and no no-op return); for an index inside the range it removes
exactly the element at that position and saves the result. -/
theorem c3_remove_at_bounds (ts : List Task) (i : Nat) :
    (ts.length ≤ i → remove_task_at_index ts (some i) = .panicked ts) ∧
    (i < ts.length →
      (remove_task_at_index ts (some i)).stored = ts.take i ++ ts.drop (i + 1)) := by
  constructor
  · intro h
    simp only [remove_task_at_index]
    rw [if_neg (Nat.not_lt.mpr h)]
  · intro h
    rw [stored_remove_of_lt h]
    exact List.eraseIdx_eq_take_drop_succ ts i

theorem c3_remove_at_bounds_witness :
    remove_task_at_index [taskA] (some 5) = RemoveResult.panicked [taskA] ∧
    (remove_task_at_index [taskA, taskB] (some 1)).stored =
      [taskA, taskB].take 1 ++ [taskA, taskB].drop (1 + 1) :=
  ⟨(c3_remove_at_bounds [taskA] 5).1 (by decide),
   (c3_remove_at_bounds [taskA, taskB] 1).2 (by decide)⟩

/-- C4: for every task count n ≥ 1 and selection Some(i), Down selects
Some(0) when i ≥ n - 1 and Some(i + 1) otherwise, and Up selects
Some(i - 1) when i > 0 and Some(n - 1) otherwise. -/
theorem c4_wraparound (n i : Nat) (h : 1 ≤ n) :
    handle_down n (some i) = some (some (if n - 1 ≤ i then 0 else i + 1)) ∧
    handle_up n (some i) = some (some (if 0 < i then i - 1 else n - 1)) := by
  have hcs : checked_sub n 1 = some (n - 1) := by
    unfold checked_sub
    rw [if_pos h]
  constructor
  · by_cases hd : n - 1 ≤ i <;> simp [handle_down, hcs, hd]
  · by_cases hu : 0 < i <;> simp [handle_up, hcs, hu]

theorem c4_wraparound_witness :
    1 ≤ 3 ∧
    (handle_down 3 (some 2) = some (some (if 3 - 1 ≤ 2 then 0 else 2 + 1)) ∧
     handle_up 3 (some 2) = some (some (if 0 < 2 then 2 - 1 else 3 - 1))) :=
  ⟨by decide, c4_wraparound 3 2 (by decide)⟩

/-- C5: for every valid index i, the list that remove_task_at_index saves
is one element shorter, equal to the elements before i followed by the
elements after i in their original order (no task is renumbered since the
surviving elements themselves are unchanged). -/
theorem c5_remove_preserves_order (ts : List Task) (i : Nat) (h : i < ts.length) :
    (remove_task_at_index ts (some i)).stored.length + 1 = ts.length ∧
    (remove_task_at_index ts (some i)).stored = ts.take i ++ ts.drop (i + 1) := by
  rw [stored_remove_of_lt h]
  exact ⟨List.length_eraseIdx_add_one h, List.eraseIdx_eq_take_drop_succ ts i⟩

theorem c5_remove_preserves_order_witness :
    ((remove_task_at_index [taskA, taskB] (some 0)).stored.length + 1 =
      [taskA, taskB].length ∧
     (remove_task_at_index [taskA, taskB] (some 0)).stored =
      [taskA, taskB].take 0 ++ [taskA, taskB].drop (0 + 1)) :=
  c5_remove_preserves_order [taskA, taskB] 0 (by decide)

/-- C6: serialize-then-deserialize is the identity on every task sequence,
and consequently save(load()) leaves the persisted content semantically
unchanged: any content that load parses successfully is re-saved as a
value that parses back to the same sequence. -/
theorem c6_save_load_roundtrip (ts : List Task) :
    read_db (write_db ts) = some ts ∧
    ∀ content ts0, read_db content = some ts0 →
      read_db (write_db ts0) = some ts0 := by
  constructor
  · simp only [write_db, read_db]
    exact deserialize_tasks_serialize ts
  · intro content ts0 _
    simp only [write_db, read_db]
    exact deserialize_tasks_serialize ts0

theorem c6_save_load_roundtrip_witness :
    read_db (write_db ([] : List Task)) = some [] :=
  (c6_save_load_roundtrip []).2 (write_db []) [] rfl

/-- C7: in every task list reachable from the empty store by add and
remove operations, the stored ids are pairwise distinct (they are in fact
strictly increasing along the list). -/
theorem c7_ids_nodup {ts : List Task} (h : Reachable ts) :
    (ts.map Task.id).Nodup :=
  List.Pairwise.imp Nat.ne_of_lt (reachable_pairwise h)

theorem c7_ids_nodup_witness :
    ((add_task_to_db "buy milk" "2023-03-01T00:00:00Z" []).map Task.id).Nodup :=
  c7_ids_nodup (Reachable.add "buy milk" "2023-03-01T00:00:00Z" Reachable.empty)

/-- C8 counterexample: starting with last_tick = 0 and a key arriving at
instant 199, the pump emits the key at 199 and then a Tick at 200, only
one time unit after the key — refuting the clause that a Tick is emitted
only when no key event has arrived more recently than the tick interval
(the tick deadline is independent of key traffic). -/
theorem c8_tick_despite_recent_key :
    (pump_step ⟨0, 0, [199]⟩).1 = [(199, PumpEvent.key)] ∧
    (pump_step (pump_step ⟨0, 0, [199]⟩).2).1 = [(200, PumpEvent.tick)] ∧
    200 - 199 < tick_rate :=
  ⟨rfl, rfl, by decide⟩

/-- C8 amended: the pump waits up to the remaining time until the next
tick deadline (last_tick + tick_rate); a key event arriving strictly
before that deadline is emitted immediately, at its arrival instant, with
last_tick (hence the deadline) unchanged; when no key arrives by the
deadline a Tick is emitted at the deadline and last_tick is reset to that
instant, making the next deadline now + interval.  (A Tick is emitted
whenever the deadline is reached, regardless of how recently a key event
arrived.) -/
theorem c8_pump_step_contract (now last_tick k : Nat) (rest : List Nat)
    (h1 : last_tick ≤ now) (h2 : now ≤ k) (h3 : k < last_tick + tick_rate) :
    pump_step ⟨now, last_tick, k :: rest⟩ =
      ([(k, PumpEvent.key)], ⟨k, last_tick, rest⟩) ∧
    pump_step ⟨now, last_tick, ([] : List Nat)⟩ =
      ([(last_tick + tick_rate, PumpEvent.tick)],
        ⟨last_tick + tick_rate, last_tick + tick_rate, []⟩) := by
  have hd1 : deadline ⟨now, last_tick, k :: rest⟩ = last_tick + tick_rate := by
    show now + (tick_rate - (now - last_tick)) = last_tick + tick_rate
    omega
  have hd2 : deadline ⟨now, last_tick, ([] : List Nat)⟩ = last_tick + tick_rate := by
    show now + (tick_rate - (now - last_tick)) = last_tick + tick_rate
    omega
  constructor
  · simp only [pump_step]
    rw [hd1, if_pos (Nat.le_of_lt h3), Nat.max_eq_right h2, if_neg (by omega)]
  · simp only [pump_step]
    rw [hd2, if_pos (by omega)]

theorem c8_pump_step_contract_witness :
    (pump_step ⟨0, 0, [100]⟩ = ([(100, PumpEvent.key)], ⟨100, 0, []⟩) ∧
     pump_step ⟨0, 0, ([] : List Nat)⟩ =
       ([(0 + tick_rate, PumpEvent.tick)], ⟨0 + tick_rate, 0 + tick_rate, []⟩)) :=
  c8_pump_step_contract 0 0 100 [] (by decide) (by decide) (by decide)

/-- C9: with an empty persisted task list, the Down branch always
evaluates the underflowing usize subtraction 0 - 1 inside its comparison,
and the Up branch does so from selection 0 when it selects the last index
— the panic branch of the arithmetic is reachable, so empty-list
navigation is not a safe no-op. -/
theorem c9_empty_list_navigation_panics :
    (∀ i : Nat, handle_down 0 (some i) = none) ∧ handle_up 0 (some 0) = none :=
  ⟨fun _ => rfl, rfl⟩

/-- C10: rendering the TaskList view fails (hits the expect panics of
render_todo) whenever the selection is missing or is not a valid index
into the freshly loaded task list; in particular rendering with the empty
list and the initial selection Some(0) always fails, and with a valid
index it succeeds. -/
theorem c10_render_todo_precondition (ts : List Task) (i : Nat) :
    (ts.length ≤ i → render_todo ts (some i) = none) ∧
    render_todo ts none = none ∧
    render_todo ([] : List Task) (some 0) = none ∧
    (i < ts.length → (render_todo ts (some i)).isSome = true) := by
  refine ⟨?_, rfl, rfl, ?_⟩
  · intro h
    simp only [render_todo]
    rw [List.getElem?_eq_none h]
  · intro h
    simp only [render_todo]
    rw [List.getElem?_eq_getElem h]
    rfl

theorem c10_render_todo_precondition_witness :
    render_todo [taskA] (some 3) = none ∧
    (render_todo [taskA] (some 0)).isSome = true :=
  ⟨(c10_render_todo_precondition [taskA] 3).1 (by decide),
   (c10_render_todo_precondition [taskA] 0).2.2.2 (by decide)⟩

end Todo
